import Mathlib

/-!
# Verification of the matcall value-marshaling and proxy layer

Shallow embedding of the core of the `matcall` repository
(`matcall/core.py`, `matcall/struct.py`, `matcall/_utils.py`):
the bidirectional value codec `to_matobj` / `to_pyobj`, the arity
inference in `eval`, `MatFunction.__init__`, `MatClass._send`, the
dynamically defined property/method setters, the `MatStruct` container
and the console-text post-processing `remove_html`.

The MATLAB engine itself is external to the repository; engine queries
(`ENGINE.nargout`, `hasattr(ENGINE, name)`, workspace writes) are
modelled as oracle parameters or explicit state.
-/

namespace Matcall

/-! ## Scalars, primitives and dtypes

Python scalar values as they appear inside numpy arrays / MATLAB
matrices (`tolist()` of an int array yields `int`s, of a float array
`float`s, of a bool array `bool`s, of a complex array `complex`es).
Floats are modelled as rationals: the codec never computes with them,
it only moves them around. -/

inductive Scalar where
  | sbool (b : Bool)
  | sint (n : Int)
  | sfloat (q : Rat)
  | scomplex (re im : Rat)
deriving DecidableEq

instance : Inhabited Scalar := ⟨.sfloat 0⟩

/-- Host-side primitive values.  `BASIC_TYPES = (float, int, str, bool)`
in `_const.py`; Python `complex` is a host scalar type but is *not* a
member of `BASIC_TYPES`, which is why it gets its own constructor. -/
inductive Prim where
  | pbool (b : Bool)
  | pint (n : Int)
  | pfloat (q : Rat)
  | pstr (s : String)
  | pcomplex (re im : Rat)
deriving DecidableEq

/-- The numpy dtypes appearing as keys of `DTYPE_MAP` in `_const.py`. -/
inductive DType where
  | i8 | i16 | i32 | i64
  | u8 | u16 | u32 | u64
  | f16 | f32 | f64
  | c64 | c128
  | boolT
deriving DecidableEq

/-- The MATLAB matrix classes (`matlab.double`, ..., `matlab.logical`);
`MATLAB_ARRAYS` in `_const.py`.  Complexness is a separate flag on the
array (`ml_complex128` constructs an `ml_double` with
`is_complex=True`). -/
inductive MLType where
  | mldouble | mlsingle
  | mluint8 | mlint8 | mluint16 | mlint16
  | mluint32 | mlint32 | mluint64 | mlint64
  | mlbool
deriving DecidableEq

/-- `DTYPE_MAP` of `_const.py`: numpy dtype to (MATLAB class, is_complex). -/
def DTYPE_MAP : DType → MLType × Bool
  | .i8 => (.mlint8, false)
  | .i16 => (.mlint16, false)
  | .i32 => (.mlint32, false)
  | .i64 => (.mlint64, false)
  | .u8 => (.mluint8, false)
  | .u16 => (.mluint16, false)
  | .u32 => (.mluint32, false)
  | .u64 => (.mluint64, false)
  | .f16 => (.mlsingle, false)
  | .f32 => (.mlsingle, false)
  | .f64 => (.mldouble, false)
  | .c64 => (.mlsingle, true)
  | .c128 => (.mldouble, true)
  | .boolT => (.mlbool, false)

/-- The dtype `np.array(matobj)` reports for a MATLAB matrix of a given
class and complexness (the buffer-protocol view used by
`np.array` in `to_pyobj`). -/
def npDtype : MLType → Bool → DType
  | .mlsingle, true => .c64
  | .mldouble, true => .c128
  | .mlsingle, false => .f32
  | .mldouble, false => .f64
  | .mlint8, _ => .i8
  | .mlint16, _ => .i16
  | .mlint32, _ => .i32
  | .mlint64, _ => .i64
  | .mluint8, _ => .u8
  | .mluint16, _ => .u16
  | .mluint32, _ => .u32
  | .mluint64, _ => .u64
  | .mlbool, _ => .boolT

/-- Scalar kinds, used to say that an array's elements match its dtype. -/
inductive SKind where
  | kBool | kInt | kFloat | kComplex
deriving DecidableEq

def scalarKind : Scalar → SKind
  | .sbool _ => .kBool
  | .sint _ => .kInt
  | .sfloat _ => .kFloat
  | .scomplex _ _ => .kComplex

def dtypeKind : DType → SKind
  | .i8 | .i16 | .i32 | .i64 | .u8 | .u16 | .u32 | .u64 => .kInt
  | .f16 | .f32 | .f64 => .kFloat
  | .c64 | .c128 => .kComplex
  | .boolT => .kBool

/-- `isinstance(x, BASIC_TYPES)` for an array element: every scalar kind
except `complex` is one of `(float, int, str, bool)`. -/
def scalarIsBasic : Scalar → Bool
  | .scomplex _ _ => false
  | _ => true

/-- The Python value an array element is, once extracted (`matobj[0][0]`). -/
def scalarToPrim : Scalar → Prim
  | .sbool b => .pbool b
  | .sint n => .pint n
  | .sfloat q => .pfloat q
  | .scomplex re im => .pcomplex re im

/-! ## Host and engine values

`HVal` is the host (Python) value model restricted to the kinds the
claims quantify over: primitives, numpy arrays (dtype, shape in
row-major logical order, flat row-major data), lists and string-keyed
records (`dict` and `MatStruct` both convert field-by-field, so they
are represented by the single `record` constructor).

`MVal` is the engine-side value model as seen through the
`matlab.engine` Python API: pass-through primitives, MATLAB matrices,
cells (Python lists) and structs (Python dicts). -/

inductive HVal where
  | prim (p : Prim)
  | arr (d : DType) (shape : List Nat) (data : List Scalar)
  | list (xs : List HVal)
  | record (fs : List (String × HVal))

inductive MVal where
  | prim (p : Prim)
  | marr (t : MLType) (cplx : Bool) (shape : List Nat) (data : List Scalar)
  | cell (xs : List MVal)
  | mstruct (fs : List (String × MVal))

/-- Shape of the MATLAB matrix built by `DTYPE_MAP[dtype](arr.tolist())`:
a flat (1-dimensional) list of length `n` yields a `1 x n` matrix, a
nested list keeps its dimensions (MATLAB matrices are at least
2-dimensional). -/
def mlShape (shape : List Nat) : List Nat :=
  if shape.length = 1 then 1 :: shape else shape

/-- `matobj.size == (1, 1) and isinstance(matobj[0][0], BASIC_TYPES)`:
the guard of the scalar-collapse branch of `to_pyobj`
(core.py line 471). -/
def sizeOneBasic (shape : List Nat) (data : List Scalar) : Bool :=
  decide (shape = [1, 1]) && ((data.head?.map scalarIsBasic).getD false)

/-- The shape squeeze applied by `to_pyobj` after `np.array(matobj)`
(core.py lines 475-478): `if shape[0] == 1` drop the first axis
(`_out_py[0]`), `elif ndim == 2 and shape[1] == 1` take the first
column (`_out_py[:, 0]`).  Both transformations keep the flat
row-major data unchanged. -/
def npShapeSqueeze : List Nat → List Nat
  | [] => []
  | a :: rest =>
      if a = 1 then rest
      else if rest = [1] then [a]
      else a :: rest

mutual

/-- `to_matobj` (core.py lines 402-444) on pure host values.
`none` models the `TypeError` raised for a value handled by no branch
(in this fragment: a bare Python `complex`, which is not in
`BASIC_TYPES` and matches no other branch). -/
def to_matobj : HVal → Option MVal
  | .prim (.pcomplex _ _) => none
  | .prim p => some (.prim p)
  | .arr d shape data =>
      some (.marr (DTYPE_MAP d).1 (DTYPE_MAP d).2 (mlShape shape) data)
  | .list xs => (to_matobjList xs).map .cell
  | .record fs => (to_matobjFields fs).map .mstruct

def to_matobjList : List HVal → Option (List MVal)
  | [] => some []
  | x :: xs => do
      let m ← to_matobj x
      let ms ← to_matobjList xs
      return m :: ms

def to_matobjFields : List (String × HVal) → Option (List (String × MVal))
  | [] => some []
  | (k, v) :: fs => do
      let m ← to_matobj v
      let ms ← to_matobjFields fs
      return (k, m) :: ms

end

mutual

/-- `to_pyobj` (core.py lines 446-484).  `none` models an uncaught
Python exception: a bare `complex` reaches `matobj.size` and raises
`AttributeError` (complex is not in `BASIC_TYPES` and has no `size`). -/
def to_pyobj : MVal → Option HVal
  | .prim (.pcomplex _ _) => none
  | .prim p => some (.prim p)
  | .cell xs => (to_pyobjList xs).map .list
  | .mstruct fs => (to_pyobjFields fs).map .record
  | .marr t c shape data =>
      if sizeOneBasic shape data then
        some (.prim (scalarToPrim data.headI))
      else
        some (.arr (npDtype t c) (npShapeSqueeze shape) data)

def to_pyobjList : List MVal → Option (List HVal)
  | [] => some []
  | x :: xs => do
      let h ← to_pyobj x
      let hs ← to_pyobjList xs
      return h :: hs

def to_pyobjFields : List (String × MVal) → Option (List (String × HVal))
  | [] => some []
  | (k, v) :: fs => do
      let h ← to_pyobj v
      let hs ← to_pyobjFields fs
      return (k, h) :: hs

end

/-! ## Well-formed host values and the documented normal form -/

mutual

/-- A host value built purely from host primitives: primitives are
`bool`/`int`/`float`/`str` (a bare `complex` is not in `BASIC_TYPES`),
arrays are non-empty with at least one axis, carry exactly
`prod shape` elements and elements of the kind their dtype dictates. -/
def Wt : HVal → Bool
  | .prim (.pcomplex _ _) => false
  | .prim _ => true
  | .arr d shape data =>
      !(decide (shape = [])) && shape.all (fun n => decide (0 < n)) &&
      decide (data.length = shape.prod) &&
      data.all (fun s => scalarKind s == dtypeKind d)
  | .list xs => WtList xs
  | .record fs => WtFields fs

def WtList : List HVal → Bool
  | [] => true
  | x :: xs => Wt x && WtList xs

def WtFields : List (String × HVal) → Bool
  | [] => true
  | (_, v) :: fs => Wt v && WtFields fs

end

mutual

/-- The values on which the round trip matches the documented
squeeze/collapse rules exactly: every array has rank at most 2, is not
complex-valued (a size-1 complex matrix does not satisfy the
`BASIC_TYPES` collapse guard) and is not `float16` (which widens to
`single`/`float32` on the way through). -/
def Tame : HVal → Bool
  | .prim _ => true
  | .arr d shape _ =>
      decide (shape.length ≤ 2) &&
      !(d == .f16) && !(d == .c64) && !(d == .c128)
  | .list xs => TameList xs
  | .record fs => TameFields fs

def TameList : List HVal → Bool
  | [] => true
  | x :: xs => Tame x && TameList xs

def TameFields : List (String × HVal) → Bool
  | [] => true
  | (_, v) :: fs => Tame v && TameFields fs

end

/-- Modelled from the spec's squeeze rules, for comparison with the
code: "a 1×N array becomes a length-N one-dimensional array; an N×1
array likewise becomes a length-N one-dimensional array; all other
shapes preserved as-is". -/
def specSqueeze : List Nat → List Nat
  | [a, b] => if a = 1 then [b] else if b = 1 then [a] else [a, b]
  | s => s

mutual

/-- Modelled from the spec's words: the expected result of the round
trip, i.e. the input with the documented vector-squeeze and
scalar-collapse rules applied ("1xN and Nx1 arrays flatten, size-1
arrays collapse to scalars"), recursively inside lists and records. -/
def specNorm : HVal → HVal
  | .prim p => .prim p
  | .arr d shape data =>
      if shape.prod = 1 then .prim (scalarToPrim data.headI)
      else .arr d (specSqueeze shape) data
  | .list xs => .list (specNormList xs)
  | .record fs => .record (specNormFields fs)

def specNormList : List HVal → List HVal
  | [] => []
  | x :: xs => specNorm x :: specNormList xs

def specNormFields : List (String × HVal) → List (String × HVal)
  | [] => []
  | (k, v) :: fs => (k, specNorm v) :: specNormFields fs

end

/-! ## Python string helpers

All string work is done on `List Char` (`String.data`), so every
definition evaluates by kernel reduction.  `pyIn sub s` is Python's
substring containment `sub in s`. -/

/-- Does the pattern (first argument) occur at the head of the text? -/
def listStartsWith : List Char → List Char → Bool
  | [], _ => true
  | _ :: _, [] => false
  | p :: ps, t :: ts => p == t && listStartsWith ps ts

/-- Does the pattern (first argument) occur anywhere in the text? -/
def listContainsSub (p : List Char) : List Char → Bool
  | [] => listStartsWith p []
  | t :: ts => listStartsWith p (t :: ts) || listContainsSub p ts

/-- Python's `sub in s` substring test. -/
def pyIn (sub s : String) : Bool :=
  listContainsSub sub.data s.data

/-- Python's `s.startswith(pre)`. -/
def pyStartsWith (pre s : String) : Bool :=
  listStartsWith pre.data s.data

/-- `s.split("(", 1)[0]`: everything before the first opening paren. -/
def pySplitHead (s : String) : String :=
  String.mk (s.data.takeWhile (fun c => c ≠ '('))

/-! ## The arity-inference heuristic of `eval` (core.py lines 148-169)

The engine call `int(ENGINE.nargout(funcname, nargout=1))` is an
oracle parameter `engN`. -/

/-- The `nargout < 0` inference chain of `eval`: contains `";"` → 0;
contains `"="` → 1 if it also contains `"=="` else 0; contains `"@"` →
1; contains `"("` → the engine-declared arity of the text before the
first paren, defaulting to 1 if negative; contains a space → 0;
otherwise 1. -/
def eval_nargout (engN : String → Int) (s : String) : Int :=
  if pyIn ";" s then 0
  else if pyIn "=" s then
    if pyIn "==" s then 1 else 0
  else if pyIn "@" s then 1
  else if pyIn "(" s then
    let n := engN (pySplitHead s)
    if n < 0 then 1 else n
  else if pyIn " " s then 0
  else 1

/-- Modelled from the claim's words, for comparison with the code: the
same rule chain but with the first rule reading "statement
*terminated by* a separator character `';'`" (the code instead tests
`";" in matlab_input`, i.e. containment anywhere). -/
def claim_nargout (engN : String → Int) (s : String) : Int :=
  if s.data.getLast? = some ';' then 0
  else if pyIn "=" s then
    if pyIn "==" s then 1 else 0
  else if pyIn "@" s then 1
  else if pyIn "(" s then
    let n := engN (pySplitHead s)
    if n < 0 then 1 else n
  else if pyIn " " s then 0
  else 1

/-! ## `MatFunction.__init__` (core.py lines 185-227), string-name path

`hasattr(ENGINE, name)` and `int(ENGINE.nargout(name, nargout=1))` are
the oracle parameters `engHas` and `engN`. -/

structure MatFunction where
  /-- The engine expression whose evaluation produced `self.fhandle`. -/
  fhandleExpr : String
  name : String
  pyname : String
  nargout : Int
deriving DecidableEq

/-- The only error `__init__` raises itself on the string path:
`NameError(f"Unrecognized function: {name}")`. -/
inductive MFErr where
  | nameErr (name : String)
deriving DecidableEq

/-- `MatFunction.__init__` for a string `name`: a string starting with
`"@"` is evaluated directly as a lambda; otherwise the name must
satisfy `hasattr(ENGINE, name)` or `NameError` is raised, and the
handle comes from evaluating `"@" + name`.  A negative `nargout` is
resolved to 1 for lambdas, else to the engine-declared arity with 1 as
the fallback for a negative report. -/
def matfunction_init (engHas : String → Bool) (engN : String → Int)
    (name : String) (nargout : Int) : Except MFErr MatFunction :=
  if pyStartsWith "@" name then
    let nout := if nargout < 0 then 1 else nargout
    .ok ⟨name, name, String.mk (name.data.drop 1), nout⟩
  else if engHas name then
    let nout :=
      if nargout < 0 then
        let n := engN name
        if n < 0 then 1 else n
      else nargout
    .ok ⟨"@" ++ name, name, name, nout⟩
  else
    .error (.nameErr name)

/-! ## `MatClass._send` (core.py lines 277-295)

An instance holds its class name, its Python `id(self)` and the cached
workspace symbol `self._objname` (absent while unbound).  The engine
workspace is modelled by the list of symbols assigned so far
(`ENGINE.workspace[objname] = ...`). -/

structure MatClassInst where
  clsname : String
  objid : Nat
  objname? : Option String
deriving DecidableEq

/-- Python's `hex(id(self))`. -/
def pyHex (n : Nat) : String :=
  "0x" ++ String.mk (Nat.toDigits 16 n)

structure Workspace where
  writes : List String
deriving DecidableEq

/-- One call of `_send`: if `_objname` is already set return it and
touch nothing; otherwise form `f"{clsname}{hex(id(self))}"`, cache it,
and assign the wrapped object into the engine workspace under it. -/
def send (inst : MatClassInst) (ws : Workspace) :
    String × MatClassInst × Workspace :=
  match inst.objname? with
  | some s => (s, inst, ws)
  | none =>
      let s := inst.clsname ++ pyHex inst.objid
      (s, { inst with objname? := some s }, ⟨ws.writes ++ [s]⟩)

/-- `n` successive accesses that each need the engine-side name (every
property read/write and method call routes through `_send`), returning
the list of symbols handed out. -/
def sendN : Nat → MatClassInst → Workspace →
    List String × MatClassInst × Workspace
  | 0, inst, ws => ([], inst, ws)
  | n + 1, inst, ws =>
      let r := send inst ws
      let r2 := sendN n r.2.1 r.2.2
      (r.1 :: r2.1, r2.2)

/-! ## Dynamically defined property and method setters
(core.py lines 301-347)

The setter first runs `self._send()` and then dispatches on
`hasattr(self, "set")` and the value's type; we record which branch
fires as a `SetAction`.  The method setter unconditionally raises. -/

inductive SetAction where
  /-- `self.set(key, value)` delegation (class exposes a `set` member). -/
  | useSetMethod (key : String) (value : HVal)
  /-- `ENGINE.eval(f"{objname}.{key}={str(value).lower()};")`. -/
  | assignBool (objname key : String) (b : Bool)
  /-- `ENGINE.eval(f"{objname}.{key}={value};")` for `int`/`float`. -/
  | assignNum (objname key : String) (p : Prim)
  /-- `ENGINE.eval(f"{objname}.{key}='{value}';")`. -/
  | assignStr (objname key value : String)
  /-- `ENGINE.eval(f"{objname}.{key}={list(value)};")`, 1-dim array. -/
  | assignVec (objname key : String) (data : List Scalar)
  /-- `AttributeError("Complicated property setting is not supported ...")`. -/
  | unsupportedPropertyError
  /-- `AttributeError("Cannot set value to methods.")`. -/
  | immutableMethodError

/-- The setter defined by `define_property` (core.py lines 313-327),
after `objname = self._send()`. -/
def property_setter (hasSet : Bool) (objname key : String) (value : HVal) :
    SetAction :=
  if hasSet then .useSetMethod key value
  else
    match value with
    | .prim (.pbool b) => .assignBool objname key b
    | .prim (.pint n) => .assignNum objname key (.pint n)
    | .prim (.pfloat q) => .assignNum objname key (.pfloat q)
    | .prim (.pstr s) => .assignStr objname key s
    | .arr _ shape data =>
        if shape.length = 1 then .assignVec objname key data
        else .unsupportedPropertyError
    | _ => .unsupportedPropertyError

/-- The setter defined by `define_method` (core.py lines 344-345). -/
def method_setter (_value : HVal) : SetAction :=
  .immutableMethodError

/-- The values the property setter commits with an inline literal:
`bool`, `int`/`float`, `str`, and a one-dimensional array. -/
def inlineable : HVal → Bool
  | .prim (.pbool _) => true
  | .prim (.pint _) => true
  | .prim (.pfloat _) => true
  | .prim (.pstr _) => true
  | .arr _ shape _ => decide (shape.length = 1)
  | _ => false

/-! ## `MatStruct` (struct.py)

The Python attribute store (`__dict__` minus the `_all` bookkeeping
list) is a latest-wins association list; `_all` is the list `__setattr__`
appends every assigned name to.  Field assignment with the key
`"_all"` itself would clobber the bookkeeping list and is outside the
model (MATLAB symbols cannot start with an underscore, which is the
collision-freedom argument of the class docstring). -/

/-- Python `__dict__` update: replace in place or append. -/
def dict_set : List (String × HVal) → String → HVal → List (String × HVal)
  | [], k, v => [(k, v)]
  | (k', v') :: rest, k, v =>
      if k' = k then (k, v) :: rest else (k', v') :: dict_set rest k v

structure MatStructM where
  attrs : List (String × HVal)
  all : List String

def ms_empty : MatStructM := ⟨[], []⟩

/-- `MatStruct.__setattr__`: store the attribute, then unconditionally
append the name to `_all` (struct.py lines 38-40). -/
def ms_setattr (st : MatStructM) (k : String) (v : HVal) : MatStructM :=
  ⟨dict_set st.attrs k v, st.all ++ [k]⟩

/-- `MatStruct.__init__`: start with `_all = []`, then `setattr` each
item of the given dict in order. -/
def ms_init (d : List (String × HVal)) : MatStructM :=
  d.foldl (fun st kv => ms_setattr st kv.1 kv.2) ms_empty

/-- `len(st)` = `len(self._all)`. -/
def ms_len (st : MatStructM) : Nat := st.all.length

inductive AttrResult where
  | val (v : HVal)
  | allList (l : List String)
  | attrError (k : String)

/-- Python attribute access on a `MatStruct`: `_all` is the
bookkeeping list, any other name is looked up in the instance dict,
and a miss raises `AttributeError`. -/
def ms_getattr (st : MatStructM) (k : String) : AttrResult :=
  if k = "_all" then .allList st.all
  else
    match st.attrs.lookup k with
    | some v => .val v
    | none => .attrError k

/-- `MatStruct.__iter__`: `zip(self._all, (getattr(self, k) for k in
self._all))`. -/
def ms_iter (st : MatStructM) : List (String × AttrResult) :=
  st.all.map (fun k => (k, ms_getattr st k))

inductive ItemResult where
  | val (v : HVal)
  | allList (l : List String)
  | keyError (k : String)
  | attrError (k : String)

/-- `MatStruct.__getitem__` (struct.py lines 29-36): `if key in
self._all: return getattr(self, key) else: raise KeyError(key)`. -/
def ms_getitem (st : MatStructM) (k : String) : ItemResult :=
  if k ∈ st.all then
    match ms_getattr st k with
    | .val v => .val v
    | .allList l => .allList l
    | .attrError k' => .attrError k'
  else .keyError k

/-! ## `remove_html` (_utils.py)

`s.split("\n")`, the per-line guard `"</" in line and line.count("<")
== line.count(">") and line.count("<") > 1`, the substitution of the
regex `<[^>]*?>` by the empty string, and `"\n".join(...)`, all on
`List Char`. -/

/-- Python `s.split("\n")`. -/
def splitLines : List Char → List (List Char)
  | [] => [[]]
  | c :: rest =>
      if c = '\n' then [] :: splitLines rest
      else
        match splitLines rest with
        | l :: ls => (c :: l) :: ls
        | [] => [[c]]

/-- Python `"\n".join(lines)`. -/
def joinLines : List (List Char) → List Char
  | [] => []
  | [l] => l
  | l :: ls => l ++ '\n' :: joinLines ls

/-- `re.sub(r"<[^>]*?>", "", line)`, with the input length as
structural fuel: scanning left to right, each `<` that is followed
(eventually) by a `>` is deleted together with everything up to and
including the first such `>`; any other character is kept.  Every
step consumes at least one character, so `cs.length` units of fuel
always suffice and the fuel-exhausted branch is unreachable. -/
def stripTagsGo : Nat → List Char → List Char
  | _, [] => []
  | 0, cs => cs
  | fuel + 1, c :: rest =>
      if c = '<' ∧ rest.any (fun x => x = '>') then
        stripTagsGo fuel ((rest.dropWhile (fun x => x ≠ '>')).tail)
      else
        c :: stripTagsGo fuel rest

def stripTags (cs : List Char) : List Char :=
  stripTagsGo cs.length cs

/-- The per-line guard of `remove_html` (_utils.py line 10). -/
def lineCond (line : List Char) : Bool :=
  listContainsSub ['<', '/'] line &&
  (line.count '<' == line.count '>') &&
  decide (1 < line.count '<')

/-- One line of `remove_html`'s loop body. -/
def processLine (line : List Char) : List Char :=
  if lineCond line then stripTags line else line

/-- `remove_html` (_utils.py lines 5-12). -/
def remove_html (s : String) : String :=
  String.mk (joinLines ((splitLines s.data).map processLine))

/-- Modelled from the claim's words, for comparison with the code: the
line "contains a balanced pair of matching markup tags", i.e. an
opening tag `<tag>` followed later by the matching closing tag
`</tag>`. -/
def HasMatchingTagPair (line : String) : Prop :=
  ∃ tag pre mid post : String, tag ≠ "" ∧
    line = pre ++ "<" ++ tag ++ ">" ++ mid ++ "</" ++ tag ++ ">" ++ post

/-! # Theorems -/

/-- For every supported dtype other than `float16`, the numpy dtype
recovered from the MATLAB matrix class is the original dtype
(`float16` widens to `float32`; both complex dtypes survive). -/
theorem npDtype_DTYPE_MAP (d : DType) (h : d ≠ .f16) :
    npDtype (DTYPE_MAP d).1 (DTYPE_MAP d).2 = d := by
  cases d <;> first | rfl | exact absurd rfl h

/-- A dtype that is neither complex width has a non-complex kind. -/
theorem dtypeKind_ne_complex (d : DType) (h1 : d ≠ .c64) (h2 : d ≠ .c128) :
    dtypeKind d ≠ .kComplex := by
  cases d <;> simp [dtypeKind] at h1 h2 ⊢

/-- A scalar whose kind is not complex satisfies the `BASIC_TYPES` test. -/
theorem scalarIsBasic_of_kind (s : Scalar) (h : scalarKind s ≠ .kComplex) :
    scalarIsBasic s = true := by
  cases s <;> simp [scalarKind, scalarIsBasic] at h ⊢

/-- Array case of the round trip: encoding a well-formed, tame host
array and decoding it lands exactly on the documented normal form. -/
theorem roundTrip_arr (d : DType) (shape : List Nat) (data : List Scalar)
    (h1 : Wt (.arr d shape data) = true) (h2 : Tame (.arr d shape data) = true) :
    to_pyobj (.marr (DTYPE_MAP d).1 (DTYPE_MAP d).2 (mlShape shape) data)
      = some (specNorm (.arr d shape data)) := by
  simp only [Wt, Bool.and_eq_true, Bool.not_eq_true', decide_eq_false_iff_not,
    decide_eq_true_eq, List.all_eq_true, beq_iff_eq] at h1
  simp only [Tame, Bool.and_eq_true, Bool.not_eq_true', beq_eq_false_iff_ne,
    decide_eq_true_eq, ne_eq] at h2
  obtain ⟨⟨⟨hne, hpos⟩, hlen⟩, hkind⟩ := h1
  obtain ⟨⟨⟨hlen2, hf16⟩, hc64⟩, hc128⟩ := h2
  have hdty := npDtype_DTYPE_MAP d hf16
  match shape with
  | [] => exact absurd rfl hne
  | [a] =>
      by_cases ha : a = 1
      · subst ha
        have hdl : data.length = 1 := by simpa using hlen
        obtain ⟨s, rfl⟩ : ∃ s, data = [s] := by
          match data, hdl with
          | [s], _ => exact ⟨s, rfl⟩
        have hb : scalarIsBasic s = true := by
          refine scalarIsBasic_of_kind s ?_
          rw [hkind s (by simp)]
          exact dtypeKind_ne_complex d hc64 hc128
        simp [to_pyobj, mlShape, sizeOneBasic, hb, specNorm, List.headI]
      · have hso : sizeOneBasic [1, a] data = false := by
          simp [sizeOneBasic, ha]
        simp [to_pyobj, hso, mlShape, npShapeSqueeze, specNorm, specSqueeze, ha, hdty]
  | [a, b] =>
      have hml : mlShape [a, b] = [a, b] := by simp [mlShape]
      by_cases ha : a = 1 <;> by_cases hb : b = 1
      · subst ha; subst hb
        have hdl : data.length = 1 := by simpa using hlen
        obtain ⟨s, rfl⟩ : ∃ s, data = [s] := by
          match data, hdl with
          | [s], _ => exact ⟨s, rfl⟩
        have hbs : scalarIsBasic s = true := by
          refine scalarIsBasic_of_kind s ?_
          rw [hkind s (by simp)]
          exact dtypeKind_ne_complex d hc64 hc128
        simp [to_pyobj, mlShape, sizeOneBasic, hbs, specNorm, List.headI]
      · subst ha
        have hso : sizeOneBasic [1, b] data = false := by
          simp [sizeOneBasic, hb]
        simp [to_pyobj, hso, mlShape, npShapeSqueeze, specNorm, specSqueeze, hb, hdty]
      · subst hb
        have hso : sizeOneBasic [a, 1] data = false := by
          simp [sizeOneBasic, ha]
        have hprod : ¬ ([a, 1].prod = 1) := by simp [ha]
        simp [to_pyobj, hso, mlShape, npShapeSqueeze, specNorm, specSqueeze, ha, hdty, hprod]
      · have hso : sizeOneBasic [a, b] data = false := by
          simp [sizeOneBasic, ha]
        have hprod : ¬ ([a, b].prod = 1) := by
          have ha2 : 2 ≤ a := by
            have := hpos a (by simp)
            omega
          have hb1 : 1 ≤ b := hpos b (by simp)
          have hm : 2 * 1 ≤ a * b := Nat.mul_le_mul ha2 hb1
          simp only [List.prod_cons, List.prod_nil, Nat.mul_one]
          omega
        simp [to_pyobj, hso, mlShape, npShapeSqueeze, specNorm, specSqueeze, ha, hb, hdty, hprod]
  | a :: b :: c :: rest =>
      simp at hlen2

mutual

theorem roundTripAux (v : HVal) (h1 : Wt v = true) (h2 : Tame v = true) :
    (to_matobj v).bind to_pyobj = some (specNorm v) := by
  cases v with
  | prim p =>
      cases p <;> simp_all [to_matobj, to_pyobj, specNorm, Wt]
  | arr d shape data =>
      have h := roundTrip_arr d shape data h1 h2
      simp [to_matobj, h]
  | list xs =>
      have h := roundTripAuxList xs (by simpa [Wt] using h1) (by simpa [Tame] using h2)
      cases hm : to_matobjList xs with
      | none => rw [hm] at h; simp at h
      | some ms =>
          rw [hm] at h
          simp only [Option.some_bind] at h
          simp [to_matobj, hm, to_pyobj, h, specNorm]
  | record fs =>
      have h := roundTripAuxFields fs (by simpa [Wt] using h1) (by simpa [Tame] using h2)
      cases hm : to_matobjFields fs with
      | none => rw [hm] at h; simp at h
      | some ms =>
          rw [hm] at h
          simp only [Option.some_bind] at h
          simp [to_matobj, hm, to_pyobj, h, specNorm]

theorem roundTripAuxList (xs : List HVal) (h1 : WtList xs = true)
    (h2 : TameList xs = true) :
    (to_matobjList xs).bind to_pyobjList = some (specNormList xs) := by
  cases xs with
  | nil => simp [to_matobjList, to_pyobjList, specNormList]
  | cons x xs =>
      simp only [WtList, Bool.and_eq_true] at h1
      simp only [TameList, Bool.and_eq_true] at h2
      have hx := roundTripAux x h1.1 h2.1
      have hxs := roundTripAuxList xs h1.2 h2.2
      cases hmx : to_matobj x with
      | none => rw [hmx] at hx; simp at hx
      | some m =>
          rw [hmx] at hx
          simp only [Option.some_bind] at hx
          cases hms : to_matobjList xs with
          | none => rw [hms] at hxs; simp at hxs
          | some ms =>
              rw [hms] at hxs
              simp only [Option.some_bind] at hxs
              simp [to_matobjList, hmx, hms, to_pyobjList, hx, hxs, specNormList]

theorem roundTripAuxFields (fs : List (String × HVal)) (h1 : WtFields fs = true)
    (h2 : TameFields fs = true) :
    (to_matobjFields fs).bind to_pyobjFields = some (specNormFields fs) := by
  cases fs with
  | nil => simp [to_matobjFields, to_pyobjFields, specNormFields]
  | cons kv fs =>
      obtain ⟨k, v⟩ := kv
      simp only [WtFields, Bool.and_eq_true] at h1
      simp only [TameFields, Bool.and_eq_true] at h2
      have hx := roundTripAux v h1.1 h2.1
      have hxs := roundTripAuxFields fs h1.2 h2.2
      cases hmx : to_matobj v with
      | none => rw [hmx] at hx; simp at hx
      | some m =>
          rw [hmx] at hx
          simp only [Option.some_bind] at hx
          cases hms : to_matobjFields fs with
          | none => rw [hms] at hxs; simp at hxs
          | some ms =>
              rw [hms] at hxs
              simp only [Option.some_bind] at hxs
              simp [to_matobjFields, hmx, hms, to_pyobjFields, hx, hxs, specNormFields]

end

/-- C1, counterexample: the round trip is NOT value-equality up to the
documented squeeze/collapse rules for every pure host value.  The
`1×2×2` int64 array is neither `1×N`, `N×1` nor size-1, so the
documented rules leave it unchanged, but `to_pyobj` drops its leading
axis (the code tests only `shape[0] == 1`, not the rank), returning a
`2×2` array. -/
theorem C1_counterexample :
    (to_matobj (.arr .i64 [1, 2, 2] [.sint 0, .sint 1, .sint 2, .sint 3])).bind to_pyobj
      = some (.arr .i64 [2, 2] [.sint 0, .sint 1, .sint 2, .sint 3])
    ∧ specNorm (.arr .i64 [1, 2, 2] [.sint 0, .sint 1, .sint 2, .sint 3])
      = .arr .i64 [1, 2, 2] [.sint 0, .sint 1, .sint 2, .sint 3]
    ∧ (HVal.arr .i64 [2, 2] [.sint 0, .sint 1, .sint 2, .sint 3]
        ≠ .arr .i64 [1, 2, 2] [.sint 0, .sint 1, .sint 2, .sint 3]) :=
  ⟨rfl, rfl, by simp⟩

/-- C1, amended: for every value built purely from host primitives
whose arrays are real (non-complex), not `float16`, and of rank at
most 2, `to_pyobj (to_matobj v)` is exactly `v` with the documented
vector-squeeze and scalar-collapse rules applied (`specNorm`).  The
exclusions are forced by the code: a rank-3 array with leading
dimension 1 loses that axis, a `1×1` complex array fails the
`BASIC_TYPES` collapse guard, and `float16` widens to `float32`. -/
theorem C1_roundtrip_amended (v : HVal) (h1 : Wt v = true) (h2 : Tame v = true) :
    (to_matobj v).bind to_pyobj = some (specNorm v) :=
  roundTripAux v h1 h2

/-- Witness for C1: a record holding a `1×3` float row vector, an int
scalar and a list with a `2×1` bool column vector round-trips onto its
squeezed normal form. -/
theorem C1_roundtrip_amended_witness :
    Wt (.record [("a", .arr .f64 [1, 3] [.sfloat 1, .sfloat 2, .sfloat 3]),
        ("b", .prim (.pint 7)),
        ("c", .list [.arr .boolT [2, 1] [.sbool true, .sbool false]])]) = true
    ∧ Tame (.record [("a", .arr .f64 [1, 3] [.sfloat 1, .sfloat 2, .sfloat 3]),
        ("b", .prim (.pint 7)),
        ("c", .list [.arr .boolT [2, 1] [.sbool true, .sbool false]])]) = true
    ∧ (to_matobj (.record [("a", .arr .f64 [1, 3] [.sfloat 1, .sfloat 2, .sfloat 3]),
        ("b", .prim (.pint 7)),
        ("c", .list [.arr .boolT [2, 1] [.sbool true, .sbool false]])])).bind to_pyobj
      = some (.record [("a", .arr .f64 [3] [.sfloat 1, .sfloat 2, .sfloat 3]),
        ("b", .prim (.pint 7)),
        ("c", .list [.arr .boolT [2] [.sbool true, .sbool false]])]) :=
  ⟨rfl, rfl,
   (C1_roundtrip_amended
      (.record [("a", .arr .f64 [1, 3] [.sfloat 1, .sfloat 2, .sfloat 3]),
        ("b", .prim (.pint 7)),
        ("c", .list [.arr .boolT [2, 1] [.sbool true, .sbool false]])])
      rfl rfl).trans rfl⟩

/-- C2, counterexample: the first rule of the heuristic is not
"statement *terminated by* `';'`".  On `"f(); g()"` (with an engine
declaring arity 1 for `"f"`), the claimed rule chain skips the
separator rule (the string does not end in `';'`) and reaches the
call-expression rule, inferring arity 1, but `eval` tests `";" in
matlab_input` and infers arity 0. -/
theorem C2_counterexample :
    eval_nargout (fun _ => 1) "f(); g()" = 0
    ∧ claim_nargout (fun _ => 1) "f(); g()" = 1
    ∧ (0 : Int) ≠ 1 :=
  ⟨by decide, by decide, by decide⟩

/-- C2, amended: with the first rule read as "*contains* a separator
character `';'` anywhere", the inference chain is exactly as claimed,
checked in order with the first match winning; in particular
`"x = 5"` infers arity 0, `"x == 5"` arity 1, and `"sqrt(4)"` the
engine-declared arity of `sqrt` (1 if the engine reports a negative
arity). -/
theorem C2_arity_amended (engN : String → Int) (s : String) :
    (pyIn ";" s = true → eval_nargout engN s = 0)
    ∧ (pyIn ";" s = false → pyIn "=" s = true → pyIn "==" s = false →
        eval_nargout engN s = 0)
    ∧ (pyIn ";" s = false → pyIn "=" s = true → pyIn "==" s = true →
        eval_nargout engN s = 1)
    ∧ (pyIn ";" s = false → pyIn "=" s = false → pyIn "@" s = true →
        eval_nargout engN s = 1)
    ∧ (pyIn ";" s = false → pyIn "=" s = false → pyIn "@" s = false →
        pyIn "(" s = true →
        eval_nargout engN s =
          if engN (pySplitHead s) < 0 then 1 else engN (pySplitHead s))
    ∧ (pyIn ";" s = false → pyIn "=" s = false → pyIn "@" s = false →
        pyIn "(" s = false → pyIn " " s = true → eval_nargout engN s = 0)
    ∧ (pyIn ";" s = false → pyIn "=" s = false → pyIn "@" s = false →
        pyIn "(" s = false → pyIn " " s = false → eval_nargout engN s = 1)
    ∧ eval_nargout engN "x = 5" = 0
    ∧ eval_nargout engN "x == 5" = 1
    ∧ eval_nargout engN "sqrt(4)" =
        (if engN "sqrt" < 0 then 1 else engN "sqrt") := by
  refine ⟨?_, ?_, ?_, ?_, ?_, ?_, ?_, ?_, ?_, ?_⟩
  · intro h1; simp [eval_nargout, h1]
  · intro h1 h2 h3; simp [eval_nargout, h1, h2, h3]
  · intro h1 h2 h3; simp [eval_nargout, h1, h2, h3]
  · intro h1 h2 h3; simp [eval_nargout, h1, h2, h3]
  · intro h1 h2 h3 h4; simp [eval_nargout, h1, h2, h3, h4]
  · intro h1 h2 h3 h4 h5; simp [eval_nargout, h1, h2, h3, h4, h5]
  · intro h1 h2 h3 h4 h5; simp [eval_nargout, h1, h2, h3, h4, h5]
  · simp [eval_nargout,
      show pyIn ";" "x = 5" = false from by decide,
      show pyIn "=" "x = 5" = true from by decide,
      show pyIn "==" "x = 5" = false from by decide]
  · simp [eval_nargout,
      show pyIn ";" "x == 5" = false from by decide,
      show pyIn "=" "x == 5" = true from by decide,
      show pyIn "==" "x == 5" = true from by decide]
  · simp [eval_nargout,
      show pyIn ";" "sqrt(4)" = false from by decide,
      show pyIn "=" "sqrt(4)" = false from by decide,
      show pyIn "@" "sqrt(4)" = false from by decide,
      show pyIn "(" "sqrt(4)" = true from by decide,
      show pySplitHead "sqrt(4)" = "sqrt" from by decide]

/-- Witness for C2: concrete inferences through the amended rule
chain — an assignment infers arity 0, a lambda marker infers 1. -/
theorem C2_arity_amended_witness :
    eval_nargout (fun _ => 5) "arr = [0, 1]" = 0
    ∧ eval_nargout (fun _ => 5) "@sin" = 1 :=
  ⟨(C2_arity_amended (fun _ => 5) "arr = [0, 1]").2.1
      (by decide) (by decide) (by decide),
   (C2_arity_amended (fun _ => 5) "@sin").2.2.2.1
      (by decide) (by decide) (by decide)⟩

/-- C3, counterexample: the scalar collapse is NOT independent of the
element dtype.  A `1×1` complex double matrix has total size 1, but
its sole element is a Python `complex`, which is not in
`BASIC_TYPES`, so `to_pyobj` does not unwrap it: it falls through to
the array branch and returns a length-1 one-dimensional array rather
than the bare scalar. -/
theorem C3_counterexample :
    to_pyobj (.marr .mldouble true [1, 1] [.scomplex 1 2])
      = some (.arr .c128 [1] [.scomplex 1 2])
    ∧ (HVal.arr .c128 [1] [.scomplex 1 2]
        ≠ .prim (scalarToPrim (.scomplex 1 2))) :=
  ⟨rfl, by simp⟩

/-- C3, amended: an engine array whose size tuple is exactly `(1, 1)`
and whose sole element is a basic host primitive (bool/int/float/str —
i.e. not complex) decodes to that bare element, for every MATLAB
matrix class; complex `1×1` arrays (and size-1 arrays of other shapes
such as `1×1×1`) are not collapsed. -/
theorem C3_collapse_amended (t : MLType) (c : Bool) (s : Scalar)
    (h : scalarIsBasic s = true) :
    to_pyobj (.marr t c [1, 1] [s]) = some (.prim (scalarToPrim s)) := by
  simp [to_pyobj, sizeOneBasic, h]

/-- Witness for C3: a `1×1` int64 matrix holding 5 collapses to the
bare integer 5. -/
theorem C3_collapse_amended_witness :
    scalarIsBasic (.sint 5) = true
    ∧ to_pyobj (.marr .mlint64 false [1, 1] [.sint 5])
        = some (.prim (.pint 5)) :=
  ⟨rfl, C3_collapse_amended .mlint64 false (.sint 5) rfl⟩

/-- C4, counterexample: not every shape other than `1×N` / `N×1` is
preserved.  A `1×2×2` double array (rank 3) is squeezed to `2×2`
because the code only checks `shape[0] == 1` before dropping the first
axis. -/
theorem C4_counterexample :
    to_pyobj (.marr .mldouble false [1, 2, 2]
        [.sfloat 1, .sfloat 2, .sfloat 3, .sfloat 4])
      = some (.arr .f64 [2, 2] [.sfloat 1, .sfloat 2, .sfloat 3, .sfloat 4])
    ∧ (HVal.arr .f64 [2, 2] [.sfloat 1, .sfloat 2, .sfloat 3, .sfloat 4]
        ≠ .arr .f64 [1, 2, 2] [.sfloat 1, .sfloat 2, .sfloat 3, .sfloat 4]) :=
  ⟨rfl, by simp⟩

/-- C4, amended: for every engine array not caught by the scalar
collapse, `to_pyobj` returns the host array with the code's squeeze
applied: any array whose first dimension is 1 loses its first axis
(so `1×N` becomes the flat length-N vector, and `1×M×N` becomes
`M×N`); otherwise a two-dimensional `N×1` array becomes the flat
length-N vector; every other shape is preserved unchanged. -/
theorem C4_squeeze_amended (t : MLType) (c : Bool) (shape : List Nat)
    (data : List Scalar) (h : sizeOneBasic shape data = false) :
    to_pyobj (.marr t c shape data)
      = some (.arr (npDtype t c) (npShapeSqueeze shape) data)
    ∧ (∀ rest : List Nat, shape = 1 :: rest → npShapeSqueeze shape = rest)
    ∧ (∀ m : Nat, shape = [m, 1] → m ≠ 1 → npShapeSqueeze shape = [m])
    ∧ (∀ (m n : Nat) (rest : List Nat), shape = m :: n :: rest → m ≠ 1 →
        ¬(n = 1 ∧ rest = []) → npShapeSqueeze shape = shape) := by
  refine ⟨by simp [to_pyobj, h], ?_, ?_, ?_⟩
  · intro rest hr; subst hr; simp [npShapeSqueeze]
  · intro m hm hm1; subst hm; simp [npShapeSqueeze, hm1]
  · intro m n rest hs hm1 hn; subst hs
    have : ¬ (n :: rest = [1]) := by
      intro hc
      cases hc
      exact hn ⟨rfl, rfl⟩
    simp [npShapeSqueeze, hm1, this]

/-- Witness for C4: a `4×1` single column vector decodes to the flat
length-4 `float32` vector. -/
theorem C4_squeeze_amendedWitness :
    sizeOneBasic [4, 1] [.sfloat 1, .sfloat 2, .sfloat 3, .sfloat 4] = false
    ∧ to_pyobj (.marr .mlsingle false [4, 1]
        [.sfloat 1, .sfloat 2, .sfloat 3, .sfloat 4])
      = some (.arr .f32 [4] [.sfloat 1, .sfloat 2, .sfloat 3, .sfloat 4]) :=
  ⟨rfl,
   ((C4_squeeze_amended .mlsingle false [4, 1]
      [.sfloat 1, .sfloat 2, .sfloat 3, .sfloat 4] rfl).1).trans rfl⟩

/-- C5, evidence of the code bug: re-assigning the field `"a"` of a
`MatStruct` appends the name to `_all` a second time, so the struct
reports 2 fields and iteration yields the field name twice (both times
with the latest value) — `MatStruct.__setattr__` appends
unconditionally instead of keeping keys unique, contradicting the
MATLAB-struct semantics the class mirrors (its own `__repr__` then
reports "MatStruct with 2 fields" for a single field). -/
theorem C5_duplicate_field_evidence :
    ms_len (ms_setattr (ms_setattr ms_empty "a" (.prim (.pint 1))) "a" (.prim (.pint 2))) = 2
    ∧ (ms_setattr (ms_setattr ms_empty "a" (.prim (.pint 1))) "a" (.prim (.pint 2))).all
        = ["a", "a"]
    ∧ ms_iter (ms_setattr (ms_setattr ms_empty "a" (.prim (.pint 1))) "a" (.prim (.pint 2)))
        = [("a", .val (.prim (.pint 2))), ("a", .val (.prim (.pint 2)))] :=
  ⟨rfl, rfl, rfl⟩

/-- Helper for C6: `_send` on an already-bound instance returns the
cached symbol every time and never touches the workspace again. -/
theorem sendN_bound (n : Nat) (cls : String) (oid : Nat) (s : String)
    (ws : Workspace) :
    sendN n ⟨cls, oid, some s⟩ ws = (List.replicate n s, ⟨cls, oid, some s⟩, ws) := by
  induction n with
  | zero => simp [sendN]
  | succ n ih => simp [sendN, send, ih, List.replicate_succ]

/-- C6: starting from an unbound instance, any positive number of
accesses that need the engine-side name performs exactly one workspace
assignment, every access returns the same symbol
`f"{clsname}{hex(id(self))}"`, and the instance ends (and stays) bound
to that symbol — the unbound-to-bound transition is one-way and the
symbol never changes. -/
theorem C6_send_once (cls : String) (oid : Nat) (ws : Workspace) (n : Nat)
    (h : 1 ≤ n) :
    sendN n ⟨cls, oid, none⟩ ws =
      (List.replicate n (cls ++ pyHex oid),
       ⟨cls, oid, some (cls ++ pyHex oid)⟩,
       ⟨ws.writes ++ [cls ++ pyHex oid]⟩) := by
  obtain ⟨m, rfl⟩ : ∃ m, n = m + 1 := ⟨n - 1, by omega⟩
  simp [sendN, send, sendN_bound, List.replicate_succ]

/-- Witness for C6: two accesses on a fresh instance of class
`"Figure"` with `id(self) = 10` yield the symbol `"Figure0xa"` twice
and a single workspace write. -/
theorem C6_send_once_witness :
    sendN 2 ⟨"Figure", 10, none⟩ ⟨[]⟩ =
      (["Figure0xa", "Figure0xa"],
       ⟨"Figure", 10, some "Figure0xa"⟩,
       ⟨["Figure0xa"]⟩) :=
  (C6_send_once "Figure" 10 ⟨[]⟩ 2 (by omega)).trans (by decide)

/-- C7: constructing a `MatFunction` from a string raises the
name-not-found error (`NameError`) if and only if the string does not
begin with the lambda marker `"@"` and `hasattr(ENGINE, name)` is
false; in particular a string beginning with `"@"` never raises it. -/
theorem C7_name_resolution (engHas : String → Bool) (engN : String → Int)
    (name : String) (nargout : Int) :
    (∃ e, matfunction_init engHas engN name nargout = .error e) ↔
      (pyStartsWith "@" name = false ∧ engHas name = false) := by
  by_cases h1 : pyStartsWith "@" name <;> by_cases h2 : engHas name <;>
    simp [matfunction_init, h1, h2]

/-- C8, counterexample: assigning a nested record value to a
synthesized property does NOT always fail — when the proxied class
exposes a `set` member (`hasattr(self, "set")`), the setter delegates
to `self.set(key, value)` for every value and raises nothing. -/
theorem C8_counterexample :
    property_setter true "obj" "prop" (.record [("a", .prim (.pint 1))])
      = .useSetMethod "prop" (.record [("a", .prim (.pint 1))])
    ∧ (SetAction.useSetMethod "prop" (.record [("a", .prim (.pint 1))])
        ≠ .unsupportedPropertyError) :=
  ⟨rfl, by simp⟩

/-- C8, amended: on a proxy whose class does not expose a `set`
member, assigning to a synthesized property raises the
unsupported-property-assignment error exactly when the value is not a
bool, int, float or string scalar and not a one-dimensional array
(nested and object-typed values in particular always fail there); on a
proxy with a `set` member the assignment is delegated to it instead;
and assigning to a synthesized method attribute always raises the
immutable-method error. -/
theorem C8_setter_amended (objname key : String) (v : HVal) :
    (property_setter false objname key v = .unsupportedPropertyError ↔
      inlineable v = false)
    ∧ property_setter true objname key v = .useSetMethod key v
    ∧ method_setter v = .immutableMethodError := by
  refine ⟨?_, by simp [property_setter], rfl⟩
  cases v with
  | prim p => cases p <;> simp [property_setter, inlineable]
  | arr d shape data =>
      by_cases h : shape.length = 1 <;> simp [property_setter, inlineable, h]
  | list xs => simp [property_setter, inlineable]
  | record fs => simp [property_setter, inlineable]

/-- C9, counterexample: the stripped lines are NOT exactly those
containing a balanced pair of matching markup tags.  The line
`"<a>x < y</a>"` contains the balanced matching pair
`<a>`...`</a>`, yet `remove_html` leaves it unchanged (the stray `<`
makes `line.count("<") == line.count(">")` fail), even though
stripping its markup would give `"x < y"`. -/
theorem C9_counterexample :
    HasMatchingTagPair "<a>x < y</a>"
    ∧ remove_html "<a>x < y</a>" = "<a>x < y</a>"
    ∧ lineCond "<a>x < y</a>".data = false
    ∧ stripTags "<a>x < y</a>".data ≠ "<a>x < y</a>".data :=
  ⟨⟨"a", "", "x < y", "", by decide, by decide⟩, by decide, by decide, by decide⟩

/-- C9, amended: `remove_html` splits the text on newlines, maps each
line independently and rejoins, so line count and order are preserved;
a line is stripped of every `<`-to-first-`>` group exactly when it
contains the closing-tag marker `"</"`, has equally many `'<'` and
`'>'` characters, and has more than one `'<'`; every other line is
kept character-for-character unchanged. -/
theorem C9_remove_html_amended (s : String) :
    remove_html s = String.mk (joinLines ((splitLines s.data).map processLine))
    ∧ ((splitLines s.data).map processLine).length = (splitLines s.data).length
    ∧ (∀ line : List Char, lineCond line = false → processLine line = line)
    ∧ (∀ line : List Char, lineCond line = true → processLine line = stripTags line) := by
  refine ⟨rfl, by simp, ?_, ?_⟩
  · intro line h
    simp [processLine, h]
  · intro line h
    simp [processLine, h]

/-- Witness for C9: a hyperlink-style line is stripped, a line with a
lone `<` is untouched. -/
theorem C9_remove_html_amended_witness :
    processLine "<a>hi</a>".data = "hi".data
    ∧ processLine "a < b".data = "a < b".data :=
  ⟨((C9_remove_html_amended "").2.2.2 "<a>hi</a>".data (by decide)).trans (by decide),
   (C9_remove_html_amended "").2.2.1 "a < b".data (by decide)⟩

/-- Helper for C10: `__dict__` update then lookup. -/
theorem lookup_dict_set (attrs : List (String × HVal)) (k k' : String) (v : HVal) :
    (dict_set attrs k v).lookup k' = if k' = k then some v else attrs.lookup k' := by
  induction attrs with
  | nil =>
      by_cases h : k' = k
      · subst h
        simp [dict_set, List.lookup]
      · simp [dict_set, List.lookup, h, beq_eq_false_iff_ne.mpr h]
  | cons kv rest ih =>
      obtain ⟨k2, v2⟩ := kv
      by_cases h2 : k2 = k
      · subst h2
        by_cases h : k' = k2
        · subst h
          simp [dict_set, List.lookup]
        · simp [dict_set, List.lookup, h, beq_eq_false_iff_ne.mpr h]
      · by_cases h : k' = k2
        · subst h
          have hk : ¬ (k' = k) := h2
          simp [dict_set, List.lookup, h2, hk]
        · simp [dict_set, List.lookup, h2, h, beq_eq_false_iff_ne.mpr h, ih]

/-- Helper for C10: a `MatStruct` built by `__init__`/`__setattr__`
with no field named `"_all"` keeps `"_all"` out of the field-order
list, and a name is in the field-order list exactly when the instance
dict has an entry for it. -/
theorem ms_init_inv (ops : List (String × HVal)) (h : ∀ p ∈ ops, p.1 ≠ "_all") :
    "_all" ∉ (ms_init ops).all
    ∧ ∀ k, k ∈ (ms_init ops).all ↔ ((ms_init ops).attrs.lookup k).isSome := by
  suffices haux : ∀ (ops : List (String × HVal)) (st : MatStructM),
      (∀ p ∈ ops, p.1 ≠ "_all") →
      ("_all" ∉ st.all ∧ ∀ k, k ∈ st.all ↔ (st.attrs.lookup k).isSome) →
      ("_all" ∉ (ops.foldl (fun st kv => ms_setattr st kv.1 kv.2) st).all
        ∧ ∀ k, k ∈ (ops.foldl (fun st kv => ms_setattr st kv.1 kv.2) st).all ↔
            (((ops.foldl (fun st kv => ms_setattr st kv.1 kv.2) st)).attrs.lookup k).isSome) by
    exact haux ops ms_empty h ⟨by simp [ms_empty], by simp [ms_empty, List.lookup]⟩
  intro ops
  induction ops with
  | nil =>
      intro st _ hst
      simpa using hst
  | cons p rest ih =>
      intro st hops hst
      obtain ⟨k0, v0⟩ := p
      have hk0 : k0 ≠ "_all" := hops (k0, v0) (by simp)
      simp only [List.foldl_cons]
      refine ih (ms_setattr st k0 v0) (fun q hq => hops q (by simp [hq])) ⟨?_, ?_⟩
      · simp only [ms_setattr, List.mem_append, List.mem_singleton]
        rintro (hc | hc)
        · exact hst.1 hc
        · exact hk0 hc.symm
      · intro k
        by_cases hkk : k = k0
        · subst hkk
          simp [ms_setattr, lookup_dict_set]
        · simp [ms_setattr, lookup_dict_set, hkk, hst.2 k]

/-- C10: on a `MatStruct` built from field assignments (no field named
`"_all"`), item access `st[k]` raises `KeyError` exactly when `k` is
not a field, returns the field's value when it is one, and raises
`KeyError` for the bookkeeping name `"_all"` even though attribute
access on `"_all"` succeeds and returns the field-order list — item
access exposes exactly the record's fields. -/
theorem C10_getitem (ops : List (String × HVal)) (h : ∀ p ∈ ops, p.1 ≠ "_all")
    (k : String) :
    (ms_getitem (ms_init ops) k = .keyError k ↔ k ∉ (ms_init ops).all)
    ∧ (k ∈ (ms_init ops).all → ∃ v, ms_getitem (ms_init ops) k = .val v)
    ∧ ms_getitem (ms_init ops) "_all" = .keyError "_all"
    ∧ ms_getattr (ms_init ops) "_all" = .allList (ms_init ops).all := by
  obtain ⟨hAll, hMem⟩ := ms_init_inv ops h
  have hval : ∀ k, k ∈ (ms_init ops).all →
      ∃ v, ms_getitem (ms_init ops) k = .val v := by
    intro k hk
    have hne : k ≠ "_all" := by
      rintro rfl
      exact hAll hk
    obtain ⟨v, hv⟩ := Option.isSome_iff_exists.mp ((hMem k).1 hk)
    exact ⟨v, by simp [ms_getitem, hk, ms_getattr, hne, hv]⟩
  refine ⟨⟨?_, ?_⟩, hval k, ?_, by simp [ms_getattr]⟩
  · intro heq hk
    obtain ⟨v, hv⟩ := hval k hk
    rw [heq] at hv
    simp at hv
  · intro hk
    simp [ms_getitem, hk]
  · simp [ms_getitem, hAll]

/-- Witness for C10: on `MatStruct({"a": 1})`, `st["_all"]` raises
`KeyError` while `"a"` is a field. -/
theorem C10_getitem_witness :
    ms_getitem (ms_init [("a", .prim (.pint 1))]) "_all" = .keyError "_all"
    ∧ "a" ∈ (ms_init [("a", .prim (.pint 1))]).all :=
  ⟨(C10_getitem [("a", .prim (.pint 1))] (by decide) "a").2.2.1, by decide⟩

end Matcall
